import Mathlib

/-!
Verification of the geometric fusion and evaluation pipeline of the morefusion
repository against its natural-language specification.

The embedding follows the two source files:
  examples/ycb_video/multiview_3d/contrib/models/baseline.py  (BaselineModel)
  objslampp/datasets/ycb_video_multi_view_pose_estimation.py  (dataset point transforms)

Floating-point values are modelled by exact rationals; a numpy NaN component is
modelled by the value none of Option ℚ, so a point that may be invalid is a
triple of Option ℚ and a valid point is a triple of ℚ.
-/

namespace Morefusion

/-- A valid 3D point (all components finite, no NaN). -/
abbrev V3 : Type := ℚ × ℚ × ℚ

/-- A possibly-invalid 3D point: each component is some rational or none (NaN). -/
abbrev PtN : Type := Option ℚ × Option ℚ × Option ℚ

/-- A per-pixel feature vector, indexed by channel. -/
abbrev Feat : Type := ℕ → ℚ

/-- A voxel-grid cell index (x, y, z). -/
abbrev Idx3 : Type := ℕ × ℕ × ℕ

/-- Extracts the valid point from a possibly-NaN point: some iff no component is
NaN.  This is the per-row content of the mask computed by the source as
mask = not isnan(pcd).any(axis=2). -/
def stripPt : PtN → Option V3
  | (some x, some y, some z) => some (x, y, z)
  | _ => none

/-- Lifts a valid point back into the possibly-NaN representation. -/
def toPtN (p : V3) : PtN := (some p.1, some p.2.1, some p.2.2)

/-- True iff some component of the point is NaN (the negation of the per-row
validity mask in the source). -/
def hasNaN (p : PtN) : Bool := (stripPt p).isNone

/-- Integer grid index of a world point: floor((point - origin) / pitch) on
each axis. -/
def voxelIdx (origin : V3) (pitch : ℚ) (p : V3) : ℤ × ℤ × ℤ :=
  (⌊(p.1 - origin.1) / pitch⌋, ⌊(p.2.1 - origin.2.1) / pitch⌋,
    ⌊(p.2.2 - origin.2.2) / pitch⌋)

/-- Modelled from the spec: the per-voxel counter of
objslampp.functions.average_voxelization_3d (the function itself is not under
src/).  Section 4.2: for each point the integer grid index is
floor((point - origin) / pitch); points whose index falls outside [0, dim) on
any axis are silently dropped; each retained point increments the counter of
its cell.  The count of a cell outside the grid is 0. -/
def voxelCounts (origin : V3) (pitch : ℚ) (dim : ℕ) (points : List V3)
    (v : Idx3) : ℕ :=
  if v.1 < dim ∧ v.2.1 < dim ∧ v.2.2 < dim then
    (points.filter (fun p =>
      decide (voxelIdx origin pitch p
        = ((v.1 : ℤ), (v.2.1 : ℤ), (v.2.2 : ℤ))))).length
  else 0

/-- Modelled from the spec: the per-voxel feature accumulator of
objslampp.functions.average_voxelization_3d.  Sum over channel c of the
features of all points retained in cell v. -/
def voxelSum (origin : V3) (pitch : ℚ) (dim : ℕ) (pairs : List (Feat × V3))
    (c : ℕ) (v : Idx3) : ℚ :=
  if v.1 < dim ∧ v.2.1 < dim ∧ v.2.2 < dim then
    ((pairs.filter (fun fp =>
      decide (voxelIdx origin pitch fp.2
        = ((v.1 : ℤ), (v.2.1 : ℤ), (v.2.2 : ℤ))))).map (fun fp => fp.1 c)).sum
  else 0

/-- Modelled from the spec: the averaged voxel grid of
objslampp.functions.average_voxelization_3d.  Each cell holds the arithmetic
mean of the contributing feature vectors, and the zero vector where the count
is zero. -/
def voxelGrid (origin : V3) (pitch : ℚ) (dim : ℕ) (pairs : List (Feat × V3))
    (c : ℕ) (v : Idx3) : ℚ :=
  let n := voxelCounts origin pitch dim (pairs.map Prod.snd) v
  if n = 0 then 0 else voxelSum origin pitch dim pairs c v / n

/-- Modelled from the spec: objslampp.functions.average_voxelization_3d with
return_counts, packaged as (mean-feature grid, count grid). -/
def average_voxelization_3d (origin : V3) (pitch : ℚ) (dim : ℕ)
    (pairs : List (Feat × V3)) : (ℕ → Idx3 → ℚ) × (Idx3 → ℕ) :=
  (voxelGrid origin pitch dim pairs,
    voxelCounts origin pitch dim (pairs.map Prod.snd))

/-- The NaN filtering performed per view by BaselineModel.predict (baseline.py
lines 94-99 and 132-137): only pixels whose point has no NaN component are kept,
paired with their feature vectors. -/
def validPairs (pixels : List (Feat × PtN)) : List (Feat × V3) :=
  pixels.filterMap (fun fp => (stripPt fp.2).map (fun p => (fp.1, p)))

/-- Voxelization of one view as performed by BaselineModel.predict: NaN rows
are dropped, then the valid (feature, point) pairs are scattered into the
grid. -/
def voxelizePixels (origin : V3) (pitch : ℚ) (dim : ℕ)
    (pixels : List (Feat × PtN)) : (ℕ → Idx3 → ℚ) × (Idx3 → ℕ) :=
  average_voxelization_3d origin pitch dim (validPairs pixels)

/-- The occupancy mask of one view: count greater than zero (baseline.py line
110, actives = counts[0] greater than 0). -/
def viewMask (origin : V3) (pitch : ℚ) (dim : ℕ)
    (pixels : List (Feat × PtN)) : Idx3 → Bool :=
  fun v => decide (0 < (voxelizePixels origin pitch dim pixels).2 v)

/-- A 4x4 homogeneous transform matrix over the rationals. -/
abbrev Mat4 : Type := Matrix (Fin 4) (Fin 4) ℚ

/-- Modelled from the spec: objslampp.functions.quaternion_matrix is not under
src/.  Section 4.1: standard conversion of a quaternion in (w, x, y, z) order
to a 3x3 rotation matrix, normalizing defensively by the squared norm n (for a
non-unit quaternion every entry is the standard quadratic form scaled by 1/n,
which stays rational); a quaternion of zero norm yields the identity. -/
def quaternion_matrix (q : ℚ × ℚ × ℚ × ℚ) : Matrix (Fin 3) (Fin 3) ℚ :=
  let w := q.1; let x := q.2.1; let y := q.2.2.1; let z := q.2.2.2
  let n := w ^ 2 + x ^ 2 + y ^ 2 + z ^ 2
  if n = 0 then 1 else
    !![1 - 2 * (y ^ 2 + z ^ 2) / n, 2 * (x * y - z * w) / n,
         2 * (x * z + y * w) / n;
       2 * (x * y + z * w) / n, 1 - 2 * (x ^ 2 + z ^ 2) / n,
         2 * (y * z - x * w) / n;
       2 * (x * z - y * w) / n, 2 * (y * z + x * w) / n,
         1 - 2 * (x ^ 2 + y ^ 2) / n]

/-- Modelled from the spec: objslampp.functions.compose_transform is not under
src/.  Section 4.1: embeds a 3x3 rotation block and a translation vector into a
4x4 homogeneous transform with bottom row (0, 0, 0, 1). -/
def compose_transform (R : Matrix (Fin 3) (Fin 3) ℚ) (t : V3) : Mat4 :=
  !![R 0 0, R 0 1, R 0 2, t.1;
     R 1 0, R 1 1, R 1 2, t.2.1;
     R 2 0, R 2 1, R 2 2, t.2.2;
     0, 0, 0, 1]

/-- Application of a homogeneous transform to a valid point:
(T times (p, 1)) restricted to the first three rows. -/
def transform_point (T : Mat4) (p : V3) : V3 :=
  (T 0 0 * p.1 + T 0 1 * p.2.1 + T 0 2 * p.2.2 + T 0 3,
   T 1 0 * p.1 + T 1 1 * p.2.1 + T 1 2 * p.2.2 + T 1 3,
   T 2 0 * p.1 + T 2 1 * p.2.1 + T 2 2 * p.2.2 + T 2 3)

/-- Modelled from the spec: objslampp.functions.transform_points is not under
src/.  Section 4.1: applies T to every point; NaN points pass through unchanged
(never transformed) to preserve the invalid-point invariant. -/
def transform_points (T : Mat4) (pts : List PtN) : List PtN :=
  pts.map (fun p =>
    match stripPt p with
    | none => p
    | some v => toPtN (transform_point T v))

/-- The general 4x4 matrix inverse used by baseline.py line 146 (chainer F.inv
computes a general inverse, not the closed-form rigid inverse), written by the
adjugate formula; it agrees with the matrix inverse whenever the determinant is
nonzero. -/
def inv4 (M : Mat4) : Mat4 := (M.det)⁻¹ • M.adjugate

/-- The cad-to-camera transform recovered from a ground-truth quaternion and
translation (baseline.py lines 113-118 and 139-144). -/
def T_cad2cam (q : ℚ × ℚ × ℚ × ℚ) (t : V3) : Mat4 :=
  compose_transform (quaternion_matrix q) t

/-- One auxiliary view as consumed by the training-time fusion loop: its
per-pixel (feature, point) rows and its instance's ground-truth quaternion and
translation. -/
structure AuxView where
  pixels : List (Feat × PtN)
  quat : ℚ × ℚ × ℚ × ℚ
  trans : V3

/-- The reprojection of an auxiliary view performed by baseline.py lines
128-150: the view's NaN rows are dropped, then its valid points are mapped by
the inverse of its own cad-to-camera transform into the object's canonical
frame and from there by the primary view's transform Ti into the primary
view's frame.  The inputs of the two transform steps are NaN-free, so the
NaN pass-through branch of transform_points cannot fire and plain application
of transform_point is the same function. -/
def reprojectPairs (Ti : Mat4) (a : AuxView) : List (Feat × V3) :=
  (validPairs a.pixels).map (fun fp =>
    (fp.1, transform_point Ti
      (transform_point (inv4 (T_cad2cam a.quat a.trans)) fp.2)))

/-- The voxelization of one reprojected auxiliary view with the primary view's
origin, pitch and dimensions (baseline.py lines 152-160). -/
def auxVoxel (origin : V3) (pitch : ℚ) (dim : ℕ) (Ti : Mat4) (a : AuxView) :
    (ℕ → Idx3 → ℚ) × (Idx3 → ℕ) :=
  average_voxelization_3d origin pitch dim (reprojectPairs Ti a)

/-- One merge step of the fusion loop (baseline.py lines 162-163): the fused
grid becomes the elementwise maximum of the accumulator and the incoming
grid, and the fused mask the pointwise disjunction of the accumulator and the
incoming count-positivity mask. -/
def fuseStep (acc : (ℕ → Idx3 → ℚ) × (Idx3 → Bool))
    (gc : (ℕ → Idx3 → ℚ) × (Idx3 → ℕ)) :
    (ℕ → Idx3 → ℚ) × (Idx3 → Bool) :=
  (fun c v => max (acc.1 c v) (gc.1 c v),
   fun v => acc.2 v || decide (0 < gc.2 v))

/-- The per-instance grid and occupancy computation of BaselineModel.predict
(baseline.py lines 101-166): voxelize the primary view; when the ambient
training flag is set, fold the selected auxiliary views into the accumulator
with fuseStep; at inference time the block is skipped entirely. -/
def fuseInstance (train : Bool) (origin : V3) (pitch : ℚ) (dim : ℕ)
    (primary : List (Feat × PtN)) (q : ℚ × ℚ × ℚ × ℚ) (t : V3)
    (auxs : List AuxView) : (ℕ → Idx3 → ℚ) × (Idx3 → Bool) :=
  let base := ((voxelizePixels origin pitch dim primary).1,
               viewMask origin pitch dim primary)
  if train then
    auxs.foldl
      (fun acc a => fuseStep acc (auxVoxel origin pitch dim (T_cad2cam q t) a))
      base
  else base

/-- The result of numpy where applied to the 0-dimensional (scalar) value
class_id[i], as hit by baseline.py line 120: NumPy 1.x treats a 0-d truthy
argument like the one-element array [x] (a behaviour deprecated since NumPy
1.17), so the index list is [0] when the scalar is nonzero and [] when it is
zero. -/
def npWhere0d (x : ℤ) : List ℕ := if x ≠ 0 then [0] else []

/-- The auxiliary-view candidate list computed by baseline.py lines 120-121:
indices = where(class_id[i])[0] filtered by index different from i.  class_id
is a one-dimensional array of per-instance class identifiers (it is used as
int(class_id[i]) in evaluate and loss and as class_id - 1 in predict), so
class_id[i] is a scalar and where sees a 0-d argument. -/
def auxCandidates (class_id : List ℤ) (i : ℕ) : List ℕ :=
  (npWhere0d (class_id.getD i 0)).filter (fun j => decide (j ≠ i))

/-- Claim-side definition, following the claim's words: the candidate views
for instance i are exactly the views other than i whose frame contains the
same class identity. -/
def sameClassCandidates (class_id : List ℤ) (i : ℕ) : List ℕ :=
  (List.range class_id.length).filter
    (fun j => decide (j ≠ i) && decide (class_id.getD j 0 = class_id.getD i 0))

/-- The row-major (C-order) enumeration of all cells of a cubic grid, the
order in which numpy where walks a (dim, dim, dim) boolean array. -/
def cellList (dim : ℕ) : List Idx3 :=
  (List.range dim) ×ˢ ((List.range dim) ×ˢ (List.range dim))

/-- The row-major list of indices of active cells, the content of
stack(where(actives)) in baseline.py line 173. -/
def activeIndices (dim : ℕ) (a : Idx3 → Bool) : List Idx3 :=
  (cellList dim).filter a

/-- The centroid computation of baseline.py lines 172-174: the per-axis mean
of the active voxel indices, scaled by pitch and shifted by origin.  When no
voxel is active, numpy's mean over an empty axis emits a RuntimeWarning and
returns NaN (it does not raise), so every component of the result is NaN. -/
def centroidOfMask (dim : ℕ) (a : Idx3 → Bool) (pitch : ℚ) (origin : V3) :
    PtN :=
  let idxs := activeIndices dim a
  if idxs.length = 0 then (none, none, none)
  else
    let k : ℚ := idxs.length
    (some ((idxs.map (fun v => (v.1 : ℚ))).sum / k * pitch + origin.1),
     some ((idxs.map (fun v => (v.2.1 : ℚ))).sum / k * pitch + origin.2.1),
     some ((idxs.map (fun v => (v.2.2 : ℚ))).sum / k * pitch + origin.2.2))

/-- The error taxonomy of spec section 7 that is relevant to the centroid
estimator. -/
inductive CentroidError where
  | emptyOccupancy
deriving DecidableEq

/-- Modelled from the spec: the centroid estimator of section 4.4, which fails
with EmptyOccupancyError when no voxel is occupied instead of returning a
value (this error type appears nowhere in the source). -/
def centroidSpec (dim : ℕ) (a : Idx3 → Bool) (pitch : ℚ) (origin : V3) :
    Except CentroidError V3 :=
  let idxs := activeIndices dim a
  if idxs.length = 0 then Except.error CentroidError.emptyOccupancy
  else
    let k : ℚ := idxs.length
    Except.ok
      (origin.1 + pitch * ((idxs.map (fun v => (v.1 : ℚ))).sum / k),
       origin.2.1 + pitch * ((idxs.map (fun v => (v.2.1 : ℚ))).sum / k),
       origin.2.2 + pitch * ((idxs.map (fun v => (v.2.2 : ℚ))).sum / k))

/-- The set of occupied cells of the grid: all in-range indices whose mask bit
is set. -/
def occupiedFinset (dim : ℕ) (a : Idx3 → Bool) : Finset Idx3 :=
  ((Finset.range dim) ×ˢ ((Finset.range dim) ×ˢ (Finset.range dim))).filter
    (fun v => a v = true)

/-- The L1 distance between two points, the norm used by
objslampp.functions.average_distance_l1. -/
def l1dist (a b : V3) : ℚ :=
  |a.1 - b.1| + |a.2.1 - b.2.1| + |a.2.2 - b.2.2|

/-- The distance from a point to its nearest neighbour in a list (0 for an
empty list, which the pipeline never produces). -/
def minDistTo (q : V3) (l : List V3) : ℚ :=
  match l with
  | [] => 0
  | r :: rs => (rs.map (fun s => l1dist q s)).foldl min (l1dist q r)

/-- Modelled from the spec: the asymmetric metric ADD of section 4.5 with the
L1 point distance of objslampp.functions.average_distance_l1 (not under src/):
the mean over i of the distance between the two transforms applied to the
correspondingly-indexed model point. -/
def add_distance (P : List V3) (T1 T2 : Mat4) : ℚ :=
  ((P.map (fun p =>
    l1dist (transform_point T1 p) (transform_point T2 p))).sum) / P.length

/-- Modelled from the spec: the symmetric metric ADD-S of section 4.5, with
nearest-neighbour matching between the two transformed copies of the model
point cloud. -/
def add_s_distance (P : List V3) (T1 T2 : Mat4) : ℚ :=
  ((P.map (fun p =>
    minDistTo (transform_point T1 p) (P.map (transform_point T2)))).sum)
    / P.length

/-- Modelled from the spec: objslampp.functions.average_distance_l1 (not under
src/), dispatching on its symmetric flag. -/
def average_distance_l1 (P : List V3) (T1 T2 : Mat4) (symmetric : Bool) : ℚ :=
  if symmetric then add_s_distance P T1 T2 else add_distance P T1 T2

/-- The four loss-mode strings accepted by BaselineModel.__init__ (baseline.py
lines 28-34): add, add_s, add/add_s and add+add_s. -/
inductive LossMode where
  | add
  | add_s
  | add_div_add_s
  | add_plus_add_s
deriving DecidableEq

/-- The default loss scale installed by BaselineModel.__init__ when none is
given: loss_scale = 0.5 for mode add+add_s (baseline.py lines 36-39). -/
def default_loss_scale : ℚ := 1 / 2

/-- The per-instance loss term of BaselineModel.loss (baseline.py lines
327-375).  The static symmetric-class table
(objslampp.datasets.ycb_video.class_ids_symmetric, not under src/; its entries
are not listed in the spec) and the canonical CAD point-cloud lookup
(self.models.get_pcd, not under src/) are passed as parameters.  Modes add,
add_s and add/add_s call average_distance_l1 once with the symmetric flag
False, True, or membership of the class in the table; mode add+add_s combines
both calls with weights scale and 1 - scale. -/
def lossTerm (mode : LossMode) (scale : ℚ) (table : List ℤ)
    (cad : ℤ → List V3) (cid : ℤ) (T1 T2 : Mat4) : ℚ :=
  match mode with
  | LossMode.add => average_distance_l1 (cad cid) T1 T2 false
  | LossMode.add_s => average_distance_l1 (cad cid) T1 T2 true
  | LossMode.add_div_add_s =>
      average_distance_l1 (cad cid) T1 T2 (decide (cid ∈ table))
  | LossMode.add_plus_add_s =>
      scale * average_distance_l1 (cad cid) T1 T2 false
        + (1 - scale) * average_distance_l1 (cad cid) T1 T2 true

/-- One retained batch element as seen by BaselineModel.__call__ after the
keep filter: its class identifier and ground-truth pose. -/
structure BatchInstance where
  class_id : ℤ
  q_true : ℚ × ℚ × ℚ × ℚ
  t_true : V3

/-- The batch loss of BaselineModel.loss: the mean over instances of the
per-instance loss terms, with predicted poses supplied by the network heads
(external collaborators). -/
def lossTotal (mode : LossMode) (scale : ℚ) (table : List ℤ)
    (cad : ℤ → List V3) (insts : List BatchInstance)
    (preds : List ((ℚ × ℚ × ℚ × ℚ) × V3)) : ℚ :=
  (((insts.zip preds).map (fun ip =>
    lossTerm mode scale table cad ip.1.class_id
      (T_cad2cam ip.1.q_true ip.1.t_true)
      (T_cad2cam ip.2.1 ip.2.2))).sum) / insts.length

/-- Modelled from the spec: the training-mode summary reported by
BaselineModel.evaluate (objslampp.metrics.average_distance is not under src/;
its ADD and ADD-S values are modelled by the section 4.5 distances): the means
over the batch of the per-instance ADD and ADD-S values, under the keys add
and add_s. -/
def evaluateReport (cad : ℤ → List V3) (insts : List BatchInstance)
    (preds : List ((ℚ × ℚ × ℚ × ℚ) × V3)) : List (String × ℚ) :=
  [("add",
    (((insts.zip preds).map (fun ip =>
      add_distance (cad ip.1.class_id)
        (T_cad2cam ip.1.q_true ip.1.t_true)
        (T_cad2cam ip.2.1 ip.2.2))).sum) / insts.length),
   ("add_s",
    (((insts.zip preds).map (fun ip =>
      add_s_distance (cad ip.1.class_id)
        (T_cad2cam ip.1.q_true ip.1.t_true)
        (T_cad2cam ip.2.1 ip.2.2))).sum) / insts.length)]

/-- The training call BaselineModel.__call__ (baseline.py lines 201-249)
reduced to its observable result: the scalar loss and the list of reported
metric entries.  Instances whose class identifier is -1 are filtered out
first; when none remain the call returns a zero loss immediately, before
predict, evaluate or loss run, so no entry is reported.  Otherwise evaluate
reports the metric summary and loss reports the loss entry. -/
def modelCall (mode : LossMode) (scale : ℚ) (table : List ℤ)
    (cad : ℤ → List V3) (batch : List BatchInstance)
    (preds : List ((ℚ × ℚ × ℚ × ℚ) × V3)) : ℚ × List (String × ℚ) :=
  let kept := batch.filter (fun b => decide (b.class_id ≠ -1))
  if kept.length = 0 then (0, [])
  else
    let L := lossTotal mode scale table cad kept preds
    (L, evaluateReport cad kept preds ++ [("loss", L)])

/-- The squared Euclidean norm of a quaternion. -/
def quatNormSq (q : ℚ × ℚ × ℚ × ℚ) : ℚ :=
  q.1 ^ 2 + q.2.1 ^ 2 + q.2.2.1 ^ 2 + q.2.2.2 ^ 2

/-- The L2 normalization applied by baseline.py line 196 (chainer F.normalize
divides by the Euclidean norm of the row).  The square root of a rational is
not rational, so the norm is supplied as the exact value n characterized in
the theorems by 0 < n and n ^ 2 = quatNormSq q. -/
def normalizeQuat (q : ℚ × ℚ × ℚ × ℚ) (n : ℚ) : ℚ × ℚ × ℚ × ℚ :=
  (q.1 / n, q.2.1 / n, q.2.2.1 / n, q.2.2.2 / n)

/-- The quaternion head postprocessing of baseline.py lines 189-196: the raw
per-class rows produced by the fully-connected heads are indexed by the
instance's foreground class and the selected row is re-normalized before being
returned. -/
def predictedQuaternion (clsRot : List (ℚ × ℚ × ℚ × ℚ)) (fgClass : ℕ)
    (n : ℚ) : ℚ × ℚ × ℚ × ℚ :=
  normalizeQuat (clsRot.getD fgClass (0, 0, 0, 0)) n

/-- The masked in-place update of the dataset
(ycb_video_multi_view_pose_estimation.py lines 126-127 and 178-179):
pcd[not isnan] = transform_points(pcd[not isnan], T).  The valid rows are
gathered in order, transformed (trimesh.transform_points applies the
homogeneous transform to each point), and scattered back into their original
positions; NaN rows are left in place. -/
def scatterValid : List PtN → List V3 → List PtN
  | [], _ => []
  | p :: ps, rs =>
    match stripPt p with
    | none => p :: scatterValid ps rs
    | some _ =>
      match rs with
      | [] => p :: scatterValid ps []
      | r :: rt => toPtN r :: scatterValid ps rt

/-- The dataset's camera-to-world point transformation: gather the NaN-free
rows, apply the transform to them, scatter the results back. -/
def maskedTransformPoints (T : Mat4) (pcd : List PtN) : List PtN :=
  scatterValid pcd ((pcd.filterMap stripPt).map (transform_point T))

theorem anyOfMap {α β : Type} (l : List α) (f : α → β) (p : β → Bool) :
    (l.map f).any p = l.any (fun a => p (f a)) := by
  induction l with
  | nil => rfl
  | cons x l ih => simp [ih]

theorem foldl_fuseStep_fst (l : List ((ℕ → Idx3 → ℚ) × (Idx3 → ℕ)))
    (g : ℕ → Idx3 → ℚ) (m : Idx3 → Bool) (c : ℕ) (v : Idx3) :
    (l.foldl fuseStep (g, m)).1 c v
      = (l.map (fun p => p.1 c v)).foldl max (g c v) := by
  induction l generalizing g m with
  | nil => rfl
  | cons p l ih =>
      rw [List.foldl_cons, List.map_cons, List.foldl_cons]
      exact ih (fun c v => max (g c v) (p.1 c v))
        (fun v => m v || decide (0 < p.2 v))

theorem foldl_fuseStep_snd (l : List ((ℕ → Idx3 → ℚ) × (Idx3 → ℕ)))
    (g : ℕ → Idx3 → ℚ) (m : Idx3 → Bool) (v : Idx3) :
    (l.foldl fuseStep (g, m)).2 v
      = (m v || l.any (fun p => decide (0 < p.2 v))) := by
  induction l generalizing g m with
  | nil => simp
  | cons p l ih =>
      rw [List.foldl_cons]
      calc (l.foldl fuseStep (fuseStep (g, m) p)).2 v
          = ((m v || decide (0 < p.2 v))
              || l.any (fun p => decide (0 < p.2 v))) :=
            ih (fun c v => max (g c v) (p.1 c v))
              (fun v => m v || decide (0 < p.2 v))
        _ = (m v || (p :: l).any (fun p => decide (0 < p.2 v))) := by
            simp [Bool.or_assoc]

/-- C1.  For every training-time fusion with at least one selected auxiliary
view, the fused grid at every channel and cell is the maximum of the primary
grid G0 and every reprojected auxiliary grid Gj at that cell, and the fused
occupancy is the disjunction of the per-view count-positivity masks. -/
theorem fused_grid_is_elementwise_max_and_mask_or
    (origin : V3) (pitch : ℚ) (dim : ℕ) (primary : List (Feat × PtN))
    (q : ℚ × ℚ × ℚ × ℚ) (t : V3) (auxs : List AuxView)
    (c : ℕ) (v : Idx3) (_hne : auxs ≠ []) :
    (fuseInstance true origin pitch dim primary q t auxs).1 c v
        = (auxs.map (fun a =>
            (auxVoxel origin pitch dim (T_cad2cam q t) a).1 c v)).foldl max
          ((voxelizePixels origin pitch dim primary).1 c v)
  ∧ (fuseInstance true origin pitch dim primary q t auxs).2 v
        = (viewMask origin pitch dim primary v
            || auxs.any (fun a =>
              decide (0 < (auxVoxel origin pitch dim (T_cad2cam q t) a).2 v))) := by
  have hrw : fuseInstance true origin pitch dim primary q t auxs
      = (auxs.map (fun a =>
          auxVoxel origin pitch dim (T_cad2cam q t) a)).foldl fuseStep
        ((voxelizePixels origin pitch dim primary).1,
          viewMask origin pitch dim primary) := by
    simp [fuseInstance, List.foldl_map]
  constructor
  · rw [hrw, foldl_fuseStep_fst, List.map_map]
    rfl
  · rw [hrw, foldl_fuseStep_snd, anyOfMap]

/-- Witness for C1 at a concrete input with one auxiliary view. -/
theorem fused_grid_is_elementwise_max_and_mask_or_witness :
    (fuseInstance true (0, 0, 0) 1 1 []
        (1, 0, 0, 0) (0, 0, 0) [⟨[], (1, 0, 0, 0), (0, 0, 0)⟩]).1 0 (0, 0, 0)
        = ([⟨[], (1, 0, 0, 0), (0, 0, 0)⟩].map (fun a =>
            (auxVoxel (0, 0, 0) 1 1
              (T_cad2cam (1, 0, 0, 0) (0, 0, 0)) a).1 0 (0, 0, 0))).foldl max
          ((voxelizePixels (0, 0, 0) 1 1 []).1 0 (0, 0, 0))
  ∧ (fuseInstance true (0, 0, 0) 1 1 []
        (1, 0, 0, 0) (0, 0, 0) [⟨[], (1, 0, 0, 0), (0, 0, 0)⟩]).2 (0, 0, 0)
        = (viewMask (0, 0, 0) 1 1 [] (0, 0, 0)
            || [⟨[], (1, 0, 0, 0), (0, 0, 0)⟩].any (fun a =>
              decide (0 < (auxVoxel (0, 0, 0) 1 1
                (T_cad2cam (1, 0, 0, 0) (0, 0, 0)) a).2 (0, 0, 0)))) :=
  fused_grid_is_elementwise_max_and_mask_or (0, 0, 0) 1 1 []
    (1, 0, 0, 0) (0, 0, 0) [⟨[], (1, 0, 0, 0), (0, 0, 0)⟩] 0 (0, 0, 0)
    (by simp)

/-- C3.  Whenever no auxiliary view is fused, at inference time or with an
empty selection during training, the per-instance output is exactly the
primary view's own grid and count-positivity mask. -/
theorem no_aux_fusion_eq_primary (train : Bool) (origin : V3) (pitch : ℚ)
    (dim : ℕ) (primary : List (Feat × PtN)) (q : ℚ × ℚ × ℚ × ℚ) (t : V3)
    (auxs : List AuxView) (h : train = false ∨ auxs = []) :
    fuseInstance train origin pitch dim primary q t auxs
      = ((voxelizePixels origin pitch dim primary).1,
         viewMask origin pitch dim primary) := by
  rcases h with h | h
  · subst h; rfl
  · subst h; cases train <;> rfl

/-- Witness for C3 at a concrete input (inference mode, no auxiliary view). -/
theorem no_aux_fusion_eq_primary_witness :
    fuseInstance false (0, 0, 0) 1 1 [] (1, 0, 0, 0) (0, 0, 0) []
      = ((voxelizePixels (0, 0, 0) 1 1 []).1, viewMask (0, 0, 0) 1 1 []) :=
  no_aux_fusion_eq_primary false (0, 0, 0) 1 1 [] (1, 0, 0, 0) (0, 0, 0) []
    (Or.inl rfl)

/-- C2.  Evaluation of the source's auxiliary-candidate computation at two
concrete batches.  With class_id = [5, 5] both views observe the class-5
object, yet instance 0 gets no candidate (where applied to the scalar 5
yields [0], and 0 is then excluded as the self index), while the claim's
same-class matching yields view 1.  With class_id = [5, 7] instance 1 gets
candidate 0 although view 0 observes a different class, while the claim
yields no candidate. -/
theorem auxCandidates_scalar_where_mismatch :
    auxCandidates [5, 5] 0 = [] ∧ sameClassCandidates [5, 5] 0 = [1]
  ∧ auxCandidates [5, 7] 1 = [0] ∧ sameClassCandidates [5, 7] 1 = [] := by
  decide

theorem validPairs_drop_nan (pre post : List (Feat × PtN)) (r : Feat × PtN)
    (h : hasNaN r.2 = true) :
    validPairs (pre ++ r :: post) = validPairs (pre ++ post) := by
  have hr : stripPt r.2 = none := by
    simpa [hasNaN, Option.isNone_iff_eq_none] using h
  simp [validPairs, List.filterMap_append, List.filterMap_cons, hr]

/-- C6.  A row whose point has a NaN component never influences the
voxelization: grid, counts and occupancy mask are identical with and without
that row, at any position in the view. -/
theorem nan_row_voxelization_invariant (origin : V3) (pitch : ℚ) (dim : ℕ)
    (pre post : List (Feat × PtN)) (r : Feat × PtN)
    (h : hasNaN r.2 = true) :
    voxelizePixels origin pitch dim (pre ++ r :: post)
      = voxelizePixels origin pitch dim (pre ++ post)
  ∧ viewMask origin pitch dim (pre ++ r :: post)
      = viewMask origin pitch dim (pre ++ post) := by
  have key := validPairs_drop_nan pre post r h
  constructor
  · unfold voxelizePixels
    rw [key]
  · unfold viewMask voxelizePixels
    rw [key]

/-- Witness for C6: a row with a NaN x-component inserted before one valid
row. -/
theorem nan_row_voxelization_invariant_witness :
    voxelizePixels (0, 0, 0) 1 1
        ([] ++ (fun _ => 0, (none, some 0, some 0))
          :: [(fun _ => 1, toPtN (0, 0, 0))])
      = voxelizePixels (0, 0, 0) 1 1 ([] ++ [(fun _ => 1, toPtN (0, 0, 0))])
  ∧ viewMask (0, 0, 0) 1 1
        ([] ++ (fun _ => 0, (none, some 0, some 0))
          :: [(fun _ => 1, toPtN (0, 0, 0))])
      = viewMask (0, 0, 0) 1 1 ([] ++ [(fun _ => 1, toPtN (0, 0, 0))]) :=
  nan_row_voxelization_invariant (0, 0, 0) 1 1 []
    [(fun _ => 1, toPtN (0, 0, 0))] (fun _ => 0, (none, some 0, some 0)) rfl

/-- C4, counterexample.  On a grid with no occupied voxel the source
computes the numpy mean of an empty index list, which is NaN, and returns the
NaN centroid silently; the spec-side centroid estimator instead fails with
EmptyOccupancyError.  The two behaviours differ at this concrete input, so the
claim that the code surfaces an error is false. -/
theorem centroid_empty_returns_nan_not_error :
    centroidOfMask 2 (fun _ => false) 1 (0, 0, 0) = (none, none, none)
  ∧ centroidSpec 2 (fun _ => false) 1 (0, 0, 0)
      = Except.error CentroidError.emptyOccupancy := by
  constructor <;> rfl

/-- C4, amended.  For every instance whose occupancy mask has no occupied
voxel, the centroid computation does not raise: every component of the
returned centroid is NaN (the numpy mean of an empty slice), silently
propagated. -/
theorem centroid_empty_mask_is_nan (dim : ℕ) (a : Idx3 → Bool) (pitch : ℚ)
    (origin : V3) (h : activeIndices dim a = []) :
    centroidOfMask dim a pitch origin = (none, none, none) := by
  simp [centroidOfMask, h]

/-- Witness for the amended C4. -/
theorem centroid_empty_mask_is_nan_witness :
    centroidOfMask 1 (fun _ => false) 1 (0, 0, 0) = (none, none, none) :=
  centroid_empty_mask_is_nan 1 (fun _ => false) 1 (0, 0, 0) rfl

/-- C7.  Under mode add/add_s the per-instance loss term is the symmetric
distance exactly when the class identifier is in the static symmetric-class
table and the asymmetric distance otherwise; under mode add+add_s it is the
convex combination with weight scale on ADD, and the default weight is
one half. -/
theorem loss_mode_dispatch (scale : ℚ) (table : List ℤ) (cad : ℤ → List V3)
    (cid : ℤ) (T1 T2 : Mat4) :
    lossTerm LossMode.add_div_add_s scale table cad cid T1 T2
      = (if cid ∈ table then add_s_distance (cad cid) T1 T2
         else add_distance (cad cid) T1 T2)
  ∧ lossTerm LossMode.add_plus_add_s scale table cad cid T1 T2
      = scale * add_distance (cad cid) T1 T2
        + (1 - scale) * add_s_distance (cad cid) T1 T2
  ∧ default_loss_scale = 1 / 2 := by
  refine ⟨?_, rfl, rfl⟩
  by_cases h : cid ∈ table
  · simp [lossTerm, average_distance_l1, h]
  · simp [lossTerm, average_distance_l1, h]

/-- C5.  A batch in which every instance carries class identifier -1 is
filtered to nothing, and the training call returns loss 0 with no reported
metric entries, before predict, evaluate or loss ever run. -/
theorem empty_batch_zero_loss_no_reports (mode : LossMode) (scale : ℚ)
    (table : List ℤ) (cad : ℤ → List V3) (batch : List BatchInstance)
    (preds : List ((ℚ × ℚ × ℚ × ℚ) × V3))
    (h : ∀ b ∈ batch, b.class_id = -1) :
    modelCall mode scale table cad batch preds = (0, []) := by
  have hk : batch.filter (fun b => decide (b.class_id ≠ -1)) = [] := by
    rw [List.filter_eq_nil_iff]
    intro b hb
    simp [h b hb]
  simp only [modelCall]
  rw [hk]
  rfl

/-- Witness for C5: a singleton batch whose only instance has class -1. -/
theorem empty_batch_zero_loss_no_reports_witness :
    modelCall LossMode.add 1 [] (fun _ => [])
      [⟨-1, (1, 0, 0, 0), (0, 0, 0)⟩] [] = (0, []) :=
  empty_batch_zero_loss_no_reports LossMode.add 1 [] (fun _ => [])
    [⟨-1, (1, 0, 0, 0), (0, 0, 0)⟩] []
    (by intro b hb; rw [List.mem_singleton] at hb; subst hb; rfl)

theorem normalizeQuat_unit (q : ℚ × ℚ × ℚ × ℚ) (n : ℚ) (hn : 0 < n)
    (hsq : n ^ 2 = quatNormSq q) : quatNormSq (normalizeQuat q n) = 1 := by
  have hne : n ≠ 0 := ne_of_gt hn
  obtain ⟨a, b, c, d⟩ := q
  simp only [normalizeQuat, quatNormSq] at hsq ⊢
  field_simp
  linarith

/-- C9.  The returned quaternion is the L2-normalized head output; whenever
the selected raw row is nonzero (its Euclidean norm n exists and is positive),
the returned quaternion has unit squared Euclidean norm. -/
theorem predicted_quaternion_unit_norm (clsRot : List (ℚ × ℚ × ℚ × ℚ))
    (fg : ℕ) (n : ℚ) (hn : 0 < n)
    (hsq : n ^ 2 = quatNormSq (clsRot.getD fg (0, 0, 0, 0))) :
    quatNormSq (predictedQuaternion clsRot fg n) = 1 :=
  normalizeQuat_unit (clsRot.getD fg (0, 0, 0, 0)) n hn hsq

/-- Witness for C9: raw head row (3, 0, 4, 0) of norm 5. -/
theorem predicted_quaternion_unit_norm_witness :
    quatNormSq (predictedQuaternion [(3, 0, 4, 0)] 0 5) = 1 :=
  predicted_quaternion_unit_norm [(3, 0, 4, 0)] 0 5 (by norm_num)
    (by norm_num [quatNormSq])

theorem scatterValid_spec (T : Mat4) (pcd : List PtN) :
    scatterValid pcd ((pcd.filterMap stripPt).map (transform_point T))
      = transform_points T pcd := by
  induction pcd with
  | nil => rfl
  | cons p ps ih =>
      have ih2 : scatterValid ps ((ps.filterMap stripPt).map (transform_point T))
          = ps.map (fun r =>
              match stripPt r with
              | none => r
              | some v => toPtN (transform_point T v)) := by
        simpa [transform_points] using ih
      cases hp : stripPt p with
      | none =>
          simp only [List.filterMap_cons_none hp, scatterValid, hp,
            transform_points, List.map_cons]
          exact congrArg (p :: ·) ih2
      | some w =>
          simp only [List.filterMap_cons_some hp, List.map_cons, scatterValid,
            hp, transform_points]
          exact congrArg (toPtN (transform_point T w) :: ·) ih2

/-- C10.  The dataset's masked camera-to-world update (gather the NaN-free
rows, transform them, scatter back in place) equals the spec's
transform_points: every NaN point passes through unchanged and every valid
point is transformed. -/
theorem dataset_masked_transform_eq_transform_points (T : Mat4)
    (pcd : List PtN) :
    maskedTransformPoints T pcd
      = pcd.map (fun p =>
          match stripPt p with
          | none => p
          | some v => toPtN (transform_point T v)) :=
  scatterValid_spec T pcd

theorem cellList_nodup (dim : ℕ) : (cellList dim).Nodup :=
  List.Nodup.product (List.nodup_range dim)
    (List.Nodup.product (List.nodup_range dim) (List.nodup_range dim))

theorem cellList_toFinset (dim : ℕ) :
    (cellList dim).toFinset
      = (Finset.range dim) ×ˢ ((Finset.range dim) ×ˢ (Finset.range dim)) := by
  ext v
  obtain ⟨x, y, z⟩ := v
  simp [cellList, List.mem_product, Finset.mem_product]

theorem activeIndices_toFinset (dim : ℕ) (a : Idx3 → Bool) :
    (activeIndices dim a).toFinset = occupiedFinset dim a := by
  unfold activeIndices occupiedFinset
  rw [List.toFinset_filter, cellList_toFinset]

theorem activeIndices_map_sum (dim : ℕ) (a : Idx3 → Bool) (f : Idx3 → ℚ) :
    ((activeIndices dim a).map f).sum = (occupiedFinset dim a).sum f := by
  rw [← activeIndices_toFinset]
  exact (List.sum_toFinset f ((cellList_nodup dim).filter a)).symm

theorem activeIndices_length (dim : ℕ) (a : Idx3 → Bool) :
    (activeIndices dim a).length = (occupiedFinset dim a).card := by
  rw [← activeIndices_toFinset]
  exact (List.toFinset_card_of_nodup ((cellList_nodup dim).filter a)).symm

/-- C8.  For every mask with at least one occupied voxel the centroid equals
origin + pitch * (mean grid-index of the occupied voxels), the mean taken per
axis over the set of occupied cells. -/
theorem centroid_eq_origin_add_pitch_mean (dim : ℕ) (a : Idx3 → Bool)
    (pitch : ℚ) (origin : V3) (h : activeIndices dim a ≠ []) :
    centroidOfMask dim a pitch origin =
      (some (origin.1 + pitch * ((occupiedFinset dim a).sum
          (fun v => (v.1 : ℚ)) / ((occupiedFinset dim a).card : ℚ))),
       some (origin.2.1 + pitch * ((occupiedFinset dim a).sum
          (fun v => (v.2.1 : ℚ)) / ((occupiedFinset dim a).card : ℚ))),
       some (origin.2.2 + pitch * ((occupiedFinset dim a).sum
          (fun v => (v.2.2 : ℚ)) / ((occupiedFinset dim a).card : ℚ)))) := by
  have hlen : ¬((activeIndices dim a).length = 0) := by
    simpa [List.length_eq_zero] using h
  have hcard : ¬((occupiedFinset dim a).card = 0) := by
    rw [← activeIndices_length dim a]
    exact hlen
  simp only [centroidOfMask,
    activeIndices_map_sum dim a (fun v => (v.1 : ℚ)),
    activeIndices_map_sum dim a (fun v => (v.2.1 : ℚ)),
    activeIndices_map_sum dim a (fun v => (v.2.2 : ℚ)),
    activeIndices_length dim a, if_neg hcard, Prod.mk.injEq,
    Option.some.injEq]
  refine ⟨by ring, by ring, by ring⟩

/-- Witness for C8: a 1-cell grid whose single cell is occupied. -/
theorem centroid_eq_origin_add_pitch_mean_witness :
    centroidOfMask 1 (fun _ => true) 1 (0, 0, 0) =
      (some ((0 : ℚ) + 1 * ((occupiedFinset 1 (fun _ => true)).sum
          (fun v => (v.1 : ℚ)) / ((occupiedFinset 1 (fun _ => true)).card : ℚ))),
       some ((0 : ℚ) + 1 * ((occupiedFinset 1 (fun _ => true)).sum
          (fun v => (v.2.1 : ℚ)) / ((occupiedFinset 1 (fun _ => true)).card : ℚ))),
       some ((0 : ℚ) + 1 * ((occupiedFinset 1 (fun _ => true)).sum
          (fun v => (v.2.2 : ℚ)) / ((occupiedFinset 1 (fun _ => true)).card : ℚ)))) :=
  centroid_eq_origin_add_pitch_mean 1 (fun _ => true) 1 (0, 0, 0) (by decide)

end Morefusion
